import Mathlib

/-!
Shallow embedding of the model-creation pipeline of `server/create.go`
(package `server` of the ollama repository snapshot under verification).

Modelling conventions:
* Machine state that the Go code reaches through the filesystem (the blob
  store, the manifest store) is abstracted into oracle functions collected in
  environment structures (`CreateEnv`, `GgufEnv`, `OrchEnv`): each oracle
  returns the outcome the corresponding I/O call would produce.  Mutations are
  recorded explicitly in an effect log (`Eff`) so that statements about "what
  was written/removed" can be made.
* Go maps (`map[string]any`, `map[string]string`) are modelled as association
  lists; map semantics are expressed through `plookup` (first match).
* Fallible Go calls become `Except`; the progress callback `fn` becomes an
  explicitly returned list of status strings; sends on the handler's channel
  become an explicitly returned list of `Event`s.
-/

namespace OllamaCreate

/-- Layer as used by `server/create.go`: a content-addressed blob reference
`{Digest, MediaType, Size}` plus the unexported `status` string that
`createModel` forwards as a progress event. -/
structure Layer where
  digest : String
  mediaType : String
  size : Nat
  status : String
deriving Repr, DecidableEq

/-- Value stored in a parameter map (`map[string]any` in Go, restricted to the
JSON scalar shapes the pipeline round-trips). -/
inductive PValue where
  | str (s : String)
  | num (n : Int)
  | bool (b : Bool)
deriving Repr, DecidableEq

/-- Message of a seed conversation (`api.Message`). -/
structure Message where
  role : String
  content : String
deriving Repr, DecidableEq

/-- Root filesystem descriptor of the config document (`RootFS`). -/
structure RootFS where
  type : String
  diffIDs : List String
deriving Repr, DecidableEq

/-- Config document built by `createModel` (`ConfigV2`). -/
structure ConfigV2 where
  modelFormat : String
  modelFamily : String
  modelFamilies : List String
  modelType : String
  fileType : String
  architecture : String
  os : String
  rootFS : RootFS
deriving Repr, DecidableEq

/-- Content of a blob written by the pipeline.  The Go code streams bytes; the
embedding keeps the structured value the bytes encode (template/system/license
text, JSON-encoded parameter map, JSON-encoded messages, JSON-encoded config). -/
inductive BlobContent where
  | text (s : String)
  | params (m : List (String × PValue))
  | messages (ms : List Message)
  | config (c : ConfigV2)
deriving Repr, DecidableEq

/-- GGUF metadata attached to a base layer: the values `createModel` reads via
`layer.GGML.Name()` and `layer.GGML.KV()` (architecture, parameter count,
file type). -/
structure GGML where
  name : String
  architecture : String
  parameterCount : Nat
  fileType : String
deriving Repr, DecidableEq

/-- The `layerGGML` pair of `server`: a `Layer` plus optional decoded GGUF
metadata (`*llm.GGML`, `none` models a nil pointer). -/
structure LayerGGML where
  layer : Layer
  ggml : Option GGML
deriving Repr, DecidableEq

/-- Errors of the creation pipeline.  The named sentinel errors of
`server/create.go` get their own constructors (the handler tests them with
`errors.Is`); `io` wraps any storage/serialization failure message;
`fuelExhausted` is an embedding artifact marking that a loop iteration bound
ran out (the source loop in `ggufLayers` has no terminating exit on this path). -/
inductive CreateErr where
  | noFilesProvided
  | onlyOneAdapterSupported
  | onlyGGUFSupported
  | unknownType
  | neitherFromOrFiles
  | badTemplate (msg : String)
  | quantUnsupported
  | licenseUnmarshal
  | io (msg : String)
  | fuelExhausted
deriving Repr, DecidableEq

/-- Message text of each error, as produced by `err.Error()` in Go. -/
def CreateErr.message : CreateErr → String
  | .noFilesProvided => "no files provided to convert"
  | .onlyOneAdapterSupported => "only one adapter is currently supported"
  | .onlyGGUFSupported => "supplied file was not in GGUF format"
  | .unknownType => "unknown type"
  | .neitherFromOrFiles => "neither 'from' or 'files' was specified"
  | .badTemplate m => m
  | .quantUnsupported => "quantization is only supported for F16 and F32 models"
  | .licenseUnmarshal => "cannot unmarshal license value"
  | .io m => m
  | .fuelExhausted => "loop iteration bound exhausted"

/-- Shape of `api.CreateRequest.License` (`any` in Go): absent, a single
string, a list of strings, or a value whose re-marshal does not decode as a
string list. -/
inductive LicenseVal where
  | nothing
  | str (s : String)
  | list (l : List String)
  | other
deriving Repr, DecidableEq

/-- Fields of `api.CreateRequest` consumed by the goroutine body of
`CreateHandler` and by `createModel`.  `fromField` is `r.From` (renamed:
`from` is a Lean keyword); `files`/`adapters` are `none` for a nil map. -/
structure CreateRequest where
  fromField : String
  files : Option (List (String × String))
  adapters : Option (List (String × String))
  quantize : String
  quantization : String
  template : String
  system : String
  license : LicenseVal
  parameters : List (String × PValue)
  messages : List Message
deriving Repr

/-- Store mutation performed by the pipeline: an attempted blob removal
(`Layer.Remove`, with its success flag), a blob write (`NewLayer`), or a
manifest write (`WriteManifest`). -/
inductive Eff where
  | removedBlob (digest : String) (ok : Bool)
  | wroteBlob (content : BlobContent) (mediatype : String)
  | wroteManifest (name : String) (configLayer : Layer) (layers : List Layer)
deriving Repr, DecidableEq

/-- Oracle environment for the layer/store operations of `create.go`.
`digestOf`/`sizeOf`/`statusOf` describe the `Layer` that `NewLayer` builds
from streamed content; `newLayerErr` is its I/O-failure oracle (also covering
JSON-encode failures that precede it); `removeBlobErr` is the failure oracle
of `Layer.Remove`; `readParams` is the open-and-JSON-decode of an existing
parameters blob; `templateErr` is `template.Parse` (`none` = parses);
`humanNumber` is `format.HumanNumber`; `writeManifestErr` is the failure
oracle of `WriteManifest`. -/
structure CreateEnv where
  digestOf : BlobContent → String
  sizeOf : BlobContent → Nat
  statusOf : BlobContent → String → String
  newLayerErr : BlobContent → String → Option String
  removeBlobErr : String → Option String
  readParams : String → Except String (List (String × PValue))
  templateErr : String → Option String
  humanNumber : Nat → String
  writeManifestErr : Option String

/-- Layer value `NewLayer` returns on success for given content and media type. -/
def mkLayer (env : CreateEnv) (content : BlobContent) (mt : String) : Layer :=
  { digest := env.digestOf content, mediaType := mt, size := env.sizeOf content,
    status := env.statusOf content mt }

/-- Embedding of `NewLayer(stream, mediatype)`: either the I/O failure the
oracle dictates, or the layer for the streamed content plus a write effect. -/
def newLayerE (env : CreateEnv) (content : BlobContent) (mt : String) :
    Except String (Layer × List Eff) :=
  match env.newLayerErr content mt with
  | some m => .error m
  | none => .ok (mkLayer env content mt, [.wroteBlob content mt])

/-- Embedding of `removeLayer(layers, mediatype)` (create.go:377):
`slices.DeleteFunc` drops every layer of the given media type; for each such
layer `layer.Remove()` is attempted and its error only logged — the layer is
dropped whether or not the blob deletion succeeded.  Returns the kept layers
and the removal-attempt effects in traversal order. -/
def removeLayer (env : CreateEnv) (layers : List Layer) (mediatype : String) :
    List Layer × List Eff :=
  match layers with
  | [] => ([], [])
  | l :: rest =>
    let r := removeLayer env rest mediatype
    if l.mediaType = mediatype then
      (r.1, .removedBlob l.digest (env.removeBlobErr l.digest).isNone :: r.2)
    else
      (l :: r.1, r.2)

/-- Embedding of `setTemplate` (create.go:392): remove any existing template
layer, validate the template (the source calls `template.Parse` twice with
identical outcome; the embedding checks once), then append the new layer.
A parse failure wraps `errBadTemplate`. -/
def setTemplate (env : CreateEnv) (layers : List Layer) (t : String) :
    Except CreateErr (List Layer) × List Eff :=
  let r := removeLayer env layers "application/vnd.ollama.image.template"
  match env.templateErr t with
  | some m => (.error (.badTemplate ("bad template: " ++ m)), r.2)
  | none =>
    match newLayerE env (.text t) "application/vnd.ollama.image.template" with
    | .error m => (.error (.io m), r.2)
    | .ok (l, e2) => (.ok (r.1 ++ [l]), r.2 ++ e2)

/-- Embedding of `setSystem` (create.go:411): remove any existing system
layer; append a replacement only when the supplied string is non-empty. -/
def setSystem (env : CreateEnv) (layers : List Layer) (s : String) :
    Except CreateErr (List Layer) × List Eff :=
  let r := removeLayer env layers "application/vnd.ollama.image.system"
  if s ≠ "" then
    match newLayerE env (.text s) "application/vnd.ollama.image.system" with
    | .error m => (.error (.io m), r.2)
    | .ok (l, e2) => (.ok (r.1 ++ [l]), r.2 ++ e2)
  else
    (.ok r.1, r.2)

/-- Embedding of `setLicense` (create.go:424): append-only, no removal. -/
def setLicense (env : CreateEnv) (layers : List Layer) (l : String) :
    Except CreateErr (List Layer) × List Eff :=
  match newLayerE env (.text l) "application/vnd.ollama.image.license" with
  | .error m => (.error (.io m), [])
  | .ok (lay, e2) => (.ok (layers ++ [lay]), e2)

/-- List of license strings applied one by one, as in the `case any` branch of
`createModel`'s license switch. -/
def setLicenseList (env : CreateEnv) (layers : List Layer) :
    List String → Except CreateErr (List Layer) × List Eff
  | [] => (.ok layers, [])
  | v :: rest =>
    match setLicense env layers v with
    | (.error e, effs) => (.error e, effs)
    | (.ok layers2, effs) =>
      match setLicenseList env layers2 rest with
      | (res, effs2) => (res, effs ++ effs2)

/-- License dispatch of `createModel` (create.go:264): nil means no-op; a
string is applied only when non-empty; any other value is re-marshalled and
decoded as a string list (each entry appended), failing when that decode
fails (`.other`). -/
def setLicenses (env : CreateEnv) (layers : List Layer) :
    LicenseVal → Except CreateErr (List Layer) × List Eff
  | .nothing => (.ok layers, [])
  | .str s => if s ≠ "" then setLicense env layers s else (.ok layers, [])
  | .list l => setLicenseList env layers l
  | .other => (.error .licenseUnmarshal, [])

/-- First-match lookup in an association list, the map-read semantics of
`p[k]` on a Go map decoded from JSON. -/
def plookup (k : String) : List (String × PValue) → Option PValue
  | [] => none
  | (k2, v) :: rest => if k2 = k then some v else plookup k rest

/-- Merge step of `setParameters` (create.go:459): every key of `existing`
that is absent from `p` is carried into `p`; keys already in `p` keep their
`p` value.  Carried entries are kept in the order of `existing`. -/
def mergeExisting (p existing : List (String × PValue)) :
    List (String × PValue) :=
  p ++ existing.filter (fun kv => (plookup kv.1 p).isNone)

/-- Loop of `setParameters` over the layer list: for each existing
parameters layer, read its stored map back from the blob store and merge it
under the accumulating map. -/
def gatherParams (env : CreateEnv) :
    List Layer → List (String × PValue) → Except CreateErr (List (String × PValue))
  | [], p => .ok p
  | l :: rest, p =>
    if l.mediaType = "application/vnd.ollama.image.params" then
      match env.readParams l.digest with
      | .error m => .error (.io m)
      | .ok existing => gatherParams env rest (mergeExisting p existing)
    else
      gatherParams env rest p

/-- Embedding of `setParameters` (create.go:434): a nil map becomes empty
(`[]`); stored parameters of every current parameters layer are merged under
the supplied map (new values win); when the merged map is empty nothing is
written and the layer list is returned unchanged; otherwise the old
parameters layer is removed and the merged map written as a new layer. -/
def setParameters (env : CreateEnv) (layers : List Layer)
    (p : List (String × PValue)) : Except CreateErr (List Layer) × List Eff :=
  match gatherParams env layers p with
  | .error e => (.error e, [])
  | .ok merged =>
    if merged.isEmpty then
      (.ok layers, [])
    else
      let r := removeLayer env layers "application/vnd.ollama.image.params"
      match newLayerE env (.params merged) "application/vnd.ollama.image.params" with
      | .error m => (.error (.io m), r.2)
      | .ok (l, e2) => (.ok (r.1 ++ [l]), r.2 ++ e2)

/-- Embedding of `setMessages` (create.go:485): zero messages leave the layer
list completely untouched; otherwise the existing messages layer is removed
and the new message list written as a layer. -/
def setMessages (env : CreateEnv) (layers : List Layer) (m : List Message) :
    Except CreateErr (List Layer) × List Eff :=
  if m.isEmpty then
    (.ok layers, [])
  else
    let r := removeLayer env layers "application/vnd.ollama.image.messages"
    match newLayerE env (.messages m) "application/vnd.ollama.image.messages" with
    | .error m2 => (.error (.io m2), r.2)
    | .ok (l, e2) => (.ok (r.1 ++ [l]), r.2 ++ e2)

/-- Embedding of `cmp.Or` on strings: the first argument unless it is the
zero value. -/
def cmpOr (a b : String) : String :=
  if a ≠ "" then a else b

/-- Embedding of `strings.ToUpper`: Go maps every rune of the string to its
upper-case form; modelled character-wise over the string's character list. -/
def toUpperGo (s : String) : String :=
  ⟨s.data.map Char.toUpper⟩

/-- Embedding of `createConfigLayer` (create.go:506): set the config's
root-filesystem diff-IDs to the digests of the given layers in order, then
JSON-encode the config and store it as the config layer. -/
def createConfigLayer (env : CreateEnv) (layers : List Layer)
    (config : ConfigV2) : Except CreateErr Layer × List Eff :=
  match newLayerE env
      (.config { config with
        rootFS := { config.rootFS with diffIDs := layers.map (·.digest) } })
      "application/vnd.docker.container.image.v1+json" with
  | .error m => (.error (.io m), [])
  | .ok (l, e) => (.ok l, e)

/-- Base-layer loop of `createModel` (create.go:228): for every base layer
with GGUF metadata, when a quantization type was requested and the layer is a
GGUF base-model layer whose file type is not F16/F32, fail (the source also
re-checks a necessarily-nil `err` first — dead code, omitted); otherwise fold
the first-wins config fields, accumulate the architecture list, and collect
the plain `Layer`. -/
def buildBaseLayers (humanNumber : Nat → String) (quantType : String) :
    List LayerGGML → ConfigV2 → List Layer →
    Except CreateErr (ConfigV2 × List Layer)
  | [], config, layers => .ok (config, layers)
  | lg :: rest, config, layers =>
    match lg.ggml with
    | some g =>
      if quantType ≠ "" ∧ g.name = "gguf" ∧
          lg.layer.mediaType = "application/vnd.ollama.image.model" ∧
          ¬ ["F16", "F32"].contains g.fileType then
        .error .quantUnsupported
      else
        buildBaseLayers humanNumber quantType rest
          { config with
            modelFormat := cmpOr config.modelFormat g.name,
            modelFamily := cmpOr config.modelFamily g.architecture,
            modelType := cmpOr config.modelType (humanNumber g.parameterCount),
            fileType := cmpOr config.fileType g.fileType,
            modelFamilies := config.modelFamilies ++ [g.architecture] }
          (layers ++ [lg.layer])
    | none => buildBaseLayers humanNumber quantType rest config (layers ++ [lg.layer])

/-- Initial config value of `createModel`: fixed OS/architecture constants
and a `layers`-typed root filesystem. -/
def initialConfig : ConfigV2 :=
  { modelFormat := "", modelFamily := "", modelFamilies := [], modelType := "",
    fileType := "", architecture := "amd64", os := "linux",
    rootFS := { type := "layers", diffIDs := [] } }

/-- Embedding of `createModel` (create.go:218).  Returns the overall outcome,
the list of progress statuses emitted through `fn` (all of them fire after the
overlay stages succeed: per-layer statuses, then "writing manifest"), and the
accumulated store effects.  The stage order is the source's: base-layer fold
(with quantization guard), template, system, license, parameters, messages,
config layer, progress emission, manifest write. -/
def createModel (env : CreateEnv) (r : CreateRequest) (name : String)
    (baseLayers : List LayerGGML) :
    Except CreateErr Unit × List String × List Eff :=
  match buildBaseLayers env.humanNumber
      (toUpperGo (cmpOr r.quantize r.quantization)) baseLayers initialConfig [] with
  | .error e => (.error e, [], [])
  | .ok (config, ls0) =>
  match (if r.template ≠ "" then setTemplate env ls0 r.template else (.ok ls0, [])) with
  | (.error e, e1) => (.error e, [], e1)
  | (.ok ls1, e1) =>
  match (if r.system ≠ "" then setSystem env ls1 r.system else (.ok ls1, [])) with
  | (.error e, e2) => (.error e, [], e1 ++ e2)
  | (.ok ls2, e2) =>
  match setLicenses env ls2 r.license with
  | (.error e, e3) => (.error e, [], e1 ++ e2 ++ e3)
  | (.ok ls3, e3) =>
  match setParameters env ls3 r.parameters with
  | (.error e, e4) => (.error e, [], e1 ++ e2 ++ e3 ++ e4)
  | (.ok ls4, e4) =>
  match setMessages env ls4 r.messages with
  | (.error e, e5) => (.error e, [], e1 ++ e2 ++ e3 ++ e4 ++ e5)
  | (.ok ls5, e5) =>
  match createConfigLayer env ls5 config with
  | (.error e, e6) => (.error e, [], e1 ++ e2 ++ e3 ++ e4 ++ e5 ++ e6)
  | (.ok configLayer, e6) =>
  let evs := ((ls5.filter (fun l => l.status ≠ "")).map (·.status)) ++ ["writing manifest"]
  match env.writeManifestErr with
  | some m => (.error (.io m), evs, e1 ++ e2 ++ e3 ++ e4 ++ e5 ++ e6)
  | none =>
    (.ok (), evs,
      (e1 ++ e2 ++ e3 ++ e4 ++ e5 ++ e6) ++ [.wroteManifest name configLayer ls5])

/-- Embedding of `kvFromLayers` (create.go:209): the metadata of the first
base layer carrying GGUF metadata, else the "no base model was found" error.
(`createModel` in this source never calls it.) -/
def kvFromLayers : List LayerGGML → Except String GGML
  | [] => .error "no base model was found"
  | l :: rest =>
    match l.ggml with
    | some g => .ok g
    | none => kvFromLayers rest

/-- Embedding of `detectModelTypeFromFiles` (create.go:171) over the file
map as an association list (file name, digest).  `blobMagic digest` is the
oracle for locating, opening and reading the blob's first four bytes and
classifying them with `llm.DetectGGMLType`: `none` models any of the three
error paths (each returns `""` immediately); `some ct` the detected type.
A non-gguf magic falls through to the next file. -/
def detectModelTypeFromFiles (blobMagic : String → Option String) :
    List (String × String) → String
  | [] => ""
  | (fn, digest) :: rest =>
    if fn.endsWith ".safetensors" then "safetensors"
    else if fn.endsWith ".gguf" then "gguf"
    else
      match blobMagic digest with
      | none => ""
      | some ct =>
        if ct = "gguf" then "gguf"
        else detectModelTypeFromFiles blobMagic rest

/-- Result of `GetBlobsPath`+`os.Open`+`detectContentType`+`Stat` on a source
blob: its detected content type and its size in bytes. -/
structure GgufBlob where
  contentType : String
  size : Nat
deriving Repr, DecidableEq

/-- Oracle environment for `ggufLayers`: `blob` locates/opens/classifies the
blob of a digest (`.error` models any of the I/O failures); `newLayerFromLayer`
is `NewLayerFromLayer(digest, mediatype, path)`; `newLayerAt digest offset`
is the fallback `NewLayer(io.NewSectionReader(blob, offset, 1), mediatype)`;
`detectChatTemplate` is *Modelled from the spec:* the function
`detectChatTemplate` is not part of the given sources — per the spec it adds,
for sources whose metadata embeds a chat-template payload, a synthesized
chat-template layer to the given layers. -/
structure GgufEnv where
  blob : String → Except String GgufBlob
  newLayerFromLayer : String → Except String Layer
  newLayerAt : String → Nat → Except String Layer
  detectChatTemplate : List LayerGGML → Except String (List LayerGGML)

/-- Zero value of `Layer` (`var layer Layer` in Go). -/
def zeroLayer : Layer :=
  { digest := "", mediaType := "", size := 0, status := "" }

/-- Loop of `ggufLayers` (create.go:350): while `offset < size`, build a layer
for the current offset (`NewLayerFromLayer` when a digest is supplied and the
offset is zero; otherwise, or when that produced an empty digest, the
section-reader fallback).  The source body neither appends the layer to the
result list nor advances `offset`, so the only exits inside the loop are
errors; `fuel` bounds the iterations in the embedding and `none` reports that
the bound was reached without the loop exiting. -/
def ggufLayersLoop (env : GgufEnv) (digest : String) (size : Nat) :
    Nat → Nat → Option (Except String (List LayerGGML))
  | 0, _ => none
  | fuel + 1, offset =>
    if offset < size then
      match (if digest ≠ "" ∧ offset = 0 then env.newLayerFromLayer digest else .ok zeroLayer) with
      | .error e => some (.error e)
      | .ok layer =>
        match (if layer.digest = "" then env.newLayerAt digest offset else .ok layer) with
        | .error e => some (.error e)
        | .ok _ => ggufLayersLoop env digest size fuel offset
    else
      some (env.detectChatTemplate [])

/-- Embedding of `ggufLayers` (create.go:319): emit "parsing GGUF", open and
content-check the blob (non-GGUF content aborts with `errOnlyGGUFSupported`),
then run the offset loop from zero; the final `detectChatTemplate` receives
the (always empty) collected layer list.  Returns the emitted statuses and
the loop outcome (`none` = the iteration bound ran out). -/
def ggufLayers (env : GgufEnv) (fuel : Nat) (digest : String) :
    List String × Option (Except CreateErr (List LayerGGML)) :=
  (["parsing GGUF"],
    match env.blob digest with
    | .error m => some (.error (.io m))
    | .ok b =>
      if b.contentType ≠ "gguf" then some (.error .onlyGGUFSupported)
      else
        match ggufLayersLoop env digest b.size fuel 0 with
        | none => none
        | some (.error m) => some (.error (.io m))
        | some (.ok ls) => some (.ok ls))

/-- Fold of `convertModelFromFiles`'s gguf branch: apply `ggufLayers` to each
file's digest and concatenate all resulting layers (an iteration-bound
exhaustion surfaces as `fuelExhausted`). -/
def convertAllLayers (env : GgufEnv) (fuel : Nat) :
    List (String × String) → List LayerGGML → Except CreateErr (List LayerGGML)
  | [], acc => .ok acc
  | (_, digest) :: rest, acc =>
    match (ggufLayers env fuel digest).2 with
    | none => .error .fuelExhausted
    | some (.error e) => .error e
    | some (.ok layers) => convertAllLayers env fuel rest (acc ++ layers)

/-- Embedding of `convertModelFromFiles` (create.go:146): dispatch on the
detected model type; in the gguf case reject empty file maps
(`errNoFilesProvided`) and multi-file adapters (`errOnlyOneAdapterSupported`),
then layer every file; every other detection outcome (including the empty
map, for which detection returns `""`) yields `errUnknownType`.  The
`baseLayers` argument is accepted and ignored exactly as in the source. -/
def convertModelFromFiles (env : GgufEnv) (blobMagic : String → Option String)
    (fuel : Nat) (files : List (String × String)) (baseLayers : List LayerGGML)
    (isAdapter : Bool) : Except CreateErr (List LayerGGML) :=
  if detectModelTypeFromFiles blobMagic files = "gguf" then
    if files.length = 0 then .error .noFilesProvided
    else if files.length > 1 ∧ isAdapter then .error .onlyOneAdapterSupported
    else convertAllLayers env fuel files []
  else .error .unknownType

/-- Event delivered on the handler's progress channel: either an
`api.ProgressResponse` status (sent through `fn`, or the final "success"
response) or a `gin.H` error payload with an optional HTTP status
classification. -/
inductive Event where
  | progress (status : String)
  | errorEvt (msg : String) (status : Option Nat)
deriving Repr, DecidableEq

/-- Sentinel errors the files branch of `CreateHandler` maps to
`http.StatusBadRequest` (create.go:87). -/
def badReqFileErrs : List CreateErr :=
  [.noFilesProvided, .onlyGGUFSupported, .unknownType]

/-- Sentinel errors the adapter branch of `CreateHandler` tests for
(create.go:105). -/
def badReqAdapterErrs : List CreateErr :=
  [.noFilesProvided, .onlyOneAdapterSupported, .onlyGGUFSupported, .unknownType]

/-- Oracle environment for the goroutine body of `CreateHandler`.  The
outcome of each I/O stage the goroutine calls is given by an oracle: each
stage result is a pair of the progress statuses it emitted through `fn` and
its returned value.  `parseFromModelRes` is *Modelled from the spec:*
`parseFromModel` is not part of the given sources — per the spec it resolves
an existing named model into its base layers, reporting progress, and returns
no layers on failure.  `convertFilesRes`/`convertAdaptersRes` stand for the
two `convertModelFromFiles` calls (their internals are embedded separately as
`convertModelFromFiles`); `pruneRes` for `oldManifest.RemoveLayers()`;
`oldManifestExists` for `ParseNamedManifest` finding a prior manifest;
`noPrune` for `envconfig.NoPrune()`; `fromNameValid` for
`model.ParseName(r.From).IsValid()`. -/
structure OrchEnv where
  cenv : CreateEnv
  r : CreateRequest
  name : String
  oldManifestExists : Bool
  noPrune : Bool
  fromNameValid : Bool
  parseFromModelRes : List String × Except String (List LayerGGML)
  convertFilesRes : List String × Except CreateErr (List LayerGGML)
  convertAdaptersRes : List String × Except CreateErr (List LayerGGML)
  pruneRes : Except String Unit

/-- Error message of `errtypes.InvalidModelNameErrMsg`. -/
def invalidModelNameMsg : String := "invalid model name"

/-- Status classification of a `createModel` failure in the handler
(create.go:121): `errors.Is(err, errBadTemplate)` sends the error event with
`http.StatusBadRequest`; any other error is sent without a status. -/
def createModelErrStatus (e : CreateErr) : Option Nat :=
  match e with
  | .badTemplate _ => some 400
  | _ => none

/-- Tail of the goroutine after base and adapter layers are settled
(create.go:120): run `createModel`; on failure emit one error event (with a
400 classification exactly for `errBadTemplate`); on success run best-effort
pruning (create.go:129) — whose failure emits an error event but does *not*
return — and finally send the "success" response. -/
def afterAdapters (env : OrchEnv) (baseLayers : List LayerGGML) : List Event :=
  match createModel env.cenv env.r env.name baseLayers with
  | (.error e, evs, _) =>
    evs.map .progress ++ [.errorEvt e.message (createModelErrStatus e)]
  | (.ok _, evs, _) =>
    evs.map .progress ++
    (if ¬ env.noPrune ∧ env.oldManifestExists then
      match env.pruneRes with
      | .error m => [.errorEvt m none]
      | .ok _ => []
    else []) ++
    [.progress "success"]

/-- Adapter stage of the goroutine (create.go:101): when adapter files were
supplied, convert them; on failure the known sentinel errors are reported
with a 400 classification — and the fallthrough for every other error
(create.go:111) *also* attaches `http.StatusBadRequest`.  On success,
non-empty adapter layers are appended to the base layers. -/
def afterBase (env : OrchEnv) (baseLayers : List LayerGGML) : List Event :=
  match env.r.adapters with
  | some _ =>
    match env.convertAdaptersRes with
    | (evs, .error e) =>
      if badReqAdapterErrs.contains e then
        evs.map .progress ++ [.errorEvt e.message (some 400)]
      else
        evs.map .progress ++ [.errorEvt e.message (some 400)]
    | (evs, .ok adapterLayers) =>
      evs.map .progress ++
        afterAdapters env
          (if adapterLayers.length > 0 then baseLayers ++ adapterLayers else baseLayers)
  | none => afterAdapters env baseLayers

/-- Embedding of the goroutine body of `CreateHandler` (create.go:60): the
full sequence of events sent on the channel `ch` for one creation request
(the channel delivers them to the consumer in emission order).  Source
resolution: a non-empty `From` goes through name validation and
`parseFromModel` — note that a `parseFromModel` failure emits an error event
*without returning* (create.go:81, no `return`), so processing continues with
nil base layers; otherwise a non-nil `Files` map goes through
`convertModelFromFiles` with the sentinel-error 400 classification; otherwise
the neither-from-nor-files error. -/
def createHandlerGo (env : OrchEnv) : List Event :=
  if env.r.fromField ≠ "" then
    if ¬ env.fromNameValid then
      [.errorEvt invalidModelNameMsg (some 400)]
    else
      match env.parseFromModelRes with
      | (evs, .error m) => evs.map .progress ++ [.errorEvt m none] ++ afterBase env []
      | (evs, .ok baseLayers) => evs.map .progress ++ afterBase env baseLayers
  else
    match env.r.files with
    | some _ =>
      match env.convertFilesRes with
      | (evs, .error e) =>
        if badReqFileErrs.contains e then
          evs.map .progress ++ [.errorEvt e.message (some 400)]
        else
          evs.map .progress ++ [.errorEvt e.message none]
      | (evs, .ok baseLayers) => evs.map .progress ++ afterBase env baseLayers
    | none => [.errorEvt CreateErr.neitherFromOrFiles.message (some 400)]

/-- Concrete store environment used to evaluate the embedding: blob writes
succeed, blob removals succeed, templates parse, the manifest write succeeds,
and the parameters blob `sha256:p0` holds the map `{a: 1}`. -/
def cenv0 : CreateEnv :=
  { digestOf := fun c =>
      match c with
      | .text s => "sha256:text-" ++ s
      | .params _ => "sha256:params"
      | .messages _ => "sha256:messages"
      | .config _ => "sha256:config",
    sizeOf := fun _ => 1,
    statusOf := fun _ _ => "",
    newLayerErr := fun _ _ => none,
    removeBlobErr := fun _ => none,
    readParams := fun d =>
      if d = "sha256:p0" then .ok [("a", PValue.num 1)] else .error "blob not found",
    templateErr := fun _ => none,
    humanNumber := fun n => toString n,
    writeManifestErr := none }

/-- Concrete base-model layer. -/
def baseLayer0 : Layer :=
  { digest := "sha256:m", mediaType := "application/vnd.ollama.image.model",
    size := 5, status := "" }

/-- Concrete base layer carrying F16 GGUF metadata. -/
def baseLG0 : LayerGGML :=
  { layer := baseLayer0,
    ggml := some { name := "gguf", architecture := "llama",
                   parameterCount := 1000, fileType := "F16" } }

/-- Concrete base layer with no GGUF metadata (nil `*llm.GGML`). -/
def baseLGnone : LayerGGML :=
  { layer := baseLayer0, ggml := none }

/-- Concrete base layer whose GGUF metadata reports an already-quantized
(Q8_0) file type. -/
def lgQuant : LayerGGML :=
  { layer := baseLayer0,
    ggml := some { name := "gguf", architecture := "llama",
                   parameterCount := 1000, fileType := "Q8_0" } }

/-- Concrete creation request with a files source and no overlays. -/
def r0 : CreateRequest :=
  { fromField := "", files := some [("m.gguf", "sha256:m")], adapters := none,
    quantize := "", quantization := "", template := "", system := "",
    license := .nothing, parameters := [], messages := [] }

/-- Request `r0` with a quantization type requested. -/
def rQuant : CreateRequest := { r0 with quantize := "q4_0" }

/-- Concrete existing parameters layer whose blob is `sha256:p0`. -/
def plDemo : Layer :=
  { digest := "sha256:p0", mediaType := "application/vnd.ollama.image.params",
    size := 1, status := "" }

/-- Concrete existing system-prompt layer. -/
def sysLayer0 : Layer :=
  { digest := "sha256:s0", mediaType := "application/vnd.ollama.image.system",
    size := 1, status := "" }

/-- Concrete base layer wrapping the existing system-prompt layer (as
`parseFromModel` produces for the layers of an existing model; no GGUF
metadata). -/
def sysLG : LayerGGML :=
  { layer := sysLayer0, ggml := none }

/-- Concrete layer list holding an existing system-prompt layer and a model
layer. -/
def demoLayers : List Layer :=
  [sysLayer0, baseLayer0]

/-- Concrete gguf environment: every digest opens as a well-formed GGUF blob
of size 1 and both layer constructors succeed. -/
def genvPos : GgufEnv :=
  { blob := fun _ => .ok { contentType := "gguf", size := 1 },
    newLayerFromLayer := fun d =>
      .ok { digest := d, mediaType := "application/vnd.ollama.image.model",
            size := 1, status := "" },
    newLayerAt := fun _ _ => .ok zeroLayer,
    detectChatTemplate := fun ls => .ok ls }

/-- Variant of `genvPos` whose blobs have size 0. -/
def genvZero : GgufEnv :=
  { genvPos with blob := fun _ => .ok { contentType := "gguf", size := 0 } }

/-- Blob-magic oracle under which no header read succeeds. -/
def magic0 : String → Option String := fun _ => none

/-- Orchestrator environment of a fully successful request (pruning skipped). -/
def orchOk : OrchEnv :=
  { cenv := cenv0, r := r0, name := "test",
    oldManifestExists := false, noPrune := true, fromNameValid := true,
    parseFromModelRes := ([], .ok []),
    convertFilesRes := (["parsing GGUF"], .ok [baseLG0]),
    convertAdaptersRes := ([], .ok []),
    pruneRes := .ok () }

/-- Orchestrator environment of a request in which everything succeeds except
the best-effort pruning of the superseded manifest. -/
def orchPruneFail : OrchEnv :=
  { cenv := cenv0, r := r0, name := "test",
    oldManifestExists := true, noPrune := false, fromNameValid := true,
    parseFromModelRes := ([], .ok []),
    convertFilesRes := (["parsing GGUF"], .ok [baseLG0]),
    convertAdaptersRes := ([], .ok []),
    pruneRes := .error "prune failed" }

/-- Orchestrator environment in which the adapter conversion fails with an
internal (non-sentinel) storage error. -/
def orchAdapterFail : OrchEnv :=
  { cenv := cenv0, r := { r0 with adapters := some [("a.gguf", "sha256:a")] },
    name := "test",
    oldManifestExists := false, noPrune := true, fromNameValid := true,
    parseFromModelRes := ([], .ok []),
    convertFilesRes := ([], .ok []),
    convertAdaptersRes := ([], .error (.io "disk failure")),
    pruneRes := .ok () }

/-! Helper lemmas shared by the claim proofs. -/

theorem removeLayer_fst (env : CreateEnv) (mt : String) :
    ∀ layers : List Layer,
      (removeLayer env layers mt).1 = layers.filter (fun l => l.mediaType ≠ mt)
  | [] => rfl
  | l :: rest => by
    unfold removeLayer
    by_cases h : l.mediaType = mt <;>
      simp [h, removeLayer_fst env mt rest, List.filter_cons]

/-- C10: `removeLayer` returns exactly the input minus every layer of the
given media type (other layers kept in their original order), no layer of
that media type is a member of the result, and the returned layer list does
not depend on the blob-removal oracle — a matching layer is dropped even when
deleting its underlying blob fails. -/
theorem removeLayer_drops_mediatype :
    ∀ (env env2 : CreateEnv) (layers : List Layer) (mt : String),
      (removeLayer env layers mt).1 = layers.filter (fun l => l.mediaType ≠ mt) ∧
      (∀ l ∈ (removeLayer env layers mt).1, l.mediaType ≠ mt) ∧
      (removeLayer env layers mt).1 = (removeLayer env2 layers mt).1 := by
  intro env env2 layers mt
  refine ⟨removeLayer_fst env mt layers, ?_, ?_⟩
  · intro l hl
    rw [removeLayer_fst env mt layers] at hl
    simpa using (List.mem_filter.mp hl).2
  · rw [removeLayer_fst env mt layers, removeLayer_fst env2 mt layers]

/-- C10 witness: concrete evaluation of the theorem at `demoLayers`. -/
theorem removeLayer_drops_mediatype_witness :
    (removeLayer cenv0 demoLayers "application/vnd.ollama.image.system").1 =
      demoLayers.filter (fun l => l.mediaType ≠ "application/vnd.ollama.image.system") ∧
    baseLayer0.mediaType ≠ "application/vnd.ollama.image.system" :=
  ⟨(removeLayer_drops_mediatype cenv0 cenv0 demoLayers
      "application/vnd.ollama.image.system").1,
   (removeLayer_drops_mediatype cenv0 cenv0 demoLayers
      "application/vnd.ollama.image.system").2.1 baseLayer0 (by decide)⟩

theorem buildBaseLayers_ok_layers (hn : Nat → String) (qt : String) :
    ∀ (bl : List LayerGGML) (cfg : ConfigV2) (acc : List Layer)
      (c : ConfigV2) (ls : List Layer),
      buildBaseLayers hn qt bl cfg acc = .ok (c, ls) →
      ls = acc ++ bl.map (·.layer) := by
  intro bl
  induction bl with
  | nil =>
    intro cfg acc c ls h
    unfold buildBaseLayers at h
    simp only [Except.ok.injEq, Prod.mk.injEq] at h
    rw [← h.2]
    simp
  | cons l rest ih =>
    intro cfg acc c ls h
    unfold buildBaseLayers at h
    split at h
    · split at h
      · simp at h
      · rw [ih _ _ _ _ h]
        simp
    · rw [ih _ _ _ _ h]
      simp

theorem setTemplate_mem (env : CreateEnv) (layers : List Layer) (t : String)
    (ls2 : List Layer) (e : List Eff)
    (h : setTemplate env layers t = (.ok ls2, e)) :
    ∀ l ∈ layers, l.mediaType ≠ "application/vnd.ollama.image.template" → l ∈ ls2 := by
  intro l hl hmt
  simp only [setTemplate] at h
  split at h
  · simp at h
  split at h
  · simp at h
  simp only [Prod.mk.injEq, Except.ok.injEq] at h
  rw [← h.1]
  refine List.mem_append_left _ ?_
  rw [removeLayer_fst]
  exact List.mem_filter.mpr ⟨hl, by simpa using hmt⟩

theorem setLicense_mem (env : CreateEnv) (layers : List Layer) (s : String)
    (ls2 : List Layer) (e : List Eff)
    (h : setLicense env layers s = (.ok ls2, e)) :
    ∀ l ∈ layers, l ∈ ls2 := by
  intro l hl
  simp only [setLicense] at h
  split at h
  · simp at h
  simp only [Prod.mk.injEq, Except.ok.injEq] at h
  rw [← h.1]
  exact List.mem_append_left _ hl

theorem setLicenseList_mem (env : CreateEnv) :
    ∀ (ss : List String) (layers ls2 : List Layer) (e : List Eff),
      setLicenseList env layers ss = (.ok ls2, e) →
      ∀ l ∈ layers, l ∈ ls2 := by
  intro ss
  induction ss with
  | nil =>
    intro layers ls2 e h l hl
    simp only [setLicenseList, Prod.mk.injEq, Except.ok.injEq] at h
    rw [← h.1]
    exact hl
  | cons v rest ih =>
    intro layers ls2 e h l hl
    simp only [setLicenseList] at h
    split at h
    · simp at h
    rename_i layers2 effs hlic
    rcases hrec : setLicenseList env layers2 rest with ⟨res, effs2⟩
    rw [hrec] at h
    simp only [Prod.mk.injEq] at h
    obtain ⟨hres, -⟩ := h
    subst hres
    exact ih layers2 ls2 effs2 hrec l (setLicense_mem env layers v layers2 effs hlic l hl)

theorem setLicenses_mem (env : CreateEnv) (lv : LicenseVal)
    (layers ls2 : List Layer) (e : List Eff)
    (h : setLicenses env layers lv = (.ok ls2, e)) :
    ∀ l ∈ layers, l ∈ ls2 := by
  intro l hl
  cases lv with
  | nothing =>
    simp only [setLicenses, Prod.mk.injEq, Except.ok.injEq] at h
    rw [← h.1]
    exact hl
  | str s =>
    simp only [setLicenses] at h
    split at h
    · exact setLicense_mem env layers s ls2 e h l hl
    · simp only [Prod.mk.injEq, Except.ok.injEq] at h
      rw [← h.1]
      exact hl
  | list ss => exact setLicenseList_mem env ss layers ls2 e h l hl
  | other => simp [setLicenses] at h

theorem setParameters_mem (env : CreateEnv) (layers : List Layer)
    (p : List (String × PValue)) (ls2 : List Layer) (e : List Eff)
    (h : setParameters env layers p = (.ok ls2, e)) :
    ∀ l ∈ layers, l.mediaType ≠ "application/vnd.ollama.image.params" → l ∈ ls2 := by
  intro l hl hmt
  simp only [setParameters] at h
  split at h
  · simp at h
  split at h
  · simp only [Prod.mk.injEq, Except.ok.injEq] at h
    rw [← h.1]
    exact hl
  split at h
  · simp at h
  simp only [Prod.mk.injEq, Except.ok.injEq] at h
  rw [← h.1]
  refine List.mem_append_left _ ?_
  rw [removeLayer_fst]
  exact List.mem_filter.mpr ⟨hl, by simpa using hmt⟩

theorem setMessages_mem (env : CreateEnv) (layers : List Layer)
    (m : List Message) (ls2 : List Layer) (e : List Eff)
    (h : setMessages env layers m = (.ok ls2, e)) :
    ∀ l ∈ layers, l.mediaType ≠ "application/vnd.ollama.image.messages" → l ∈ ls2 := by
  intro l hl hmt
  simp only [setMessages] at h
  split at h
  · simp only [Prod.mk.injEq, Except.ok.injEq] at h
    rw [← h.1]
    exact hl
  split at h
  · simp at h
  simp only [Prod.mk.injEq, Except.ok.injEq] at h
  rw [← h.1]
  refine List.mem_append_left _ ?_
  rw [removeLayer_fst]
  exact List.mem_filter.mpr ⟨hl, by simpa using hmt⟩

/-- C2 (amended): the helper `setSystem` with the empty string does remove
every system-prompt layer without appending a replacement, and a non-empty
string replaces the system layer; but `createModel` invokes `setSystem` only
when the request's system string is non-empty (create.go:257), so a creation
request supplying the empty string leaves any existing system-prompt layer in
place: every system layer among the base layers is still present in the layer
list of the manifest written for the request. -/
theorem setSystem_empty_clears :
    (∀ (env : CreateEnv) (layers : List Layer),
      (setSystem env layers "").1 =
        .ok (layers.filter (fun l => l.mediaType ≠ "application/vnd.ollama.image.system")) ∧
      ∀ ls, (setSystem env layers "").1 = .ok ls →
        ∀ l ∈ ls, l.mediaType ≠ "application/vnd.ollama.image.system") ∧
    (∀ (env : CreateEnv) (layers : List Layer) (s : String),
      s ≠ "" →
      env.newLayerErr (.text s) "application/vnd.ollama.image.system" = none →
      (setSystem env layers s).1 =
        .ok (layers.filter (fun l => l.mediaType ≠ "application/vnd.ollama.image.system") ++
             [mkLayer env (.text s) "application/vnd.ollama.image.system"])) ∧
    (∀ (env : CreateEnv) (r : CreateRequest) (name : String)
       (bl : List LayerGGML) (evs : List String) (effs : List Eff)
       (name2 : String) (cl : Layer) (ls : List Layer) (lsys : Layer),
      r.system = "" →
      createModel env r name bl = (.ok (), evs, effs) →
      effs.getLast? = some (.wroteManifest name2 cl ls) →
      lsys ∈ bl.map (·.layer) →
      lsys.mediaType = "application/vnd.ollama.image.system" →
      lsys ∈ ls) := by
  refine ⟨?_, ?_, ?_⟩
  · intro env layers
    constructor
    · unfold setSystem
      simp [removeLayer_fst]
    · intro ls hls l hl
      unfold setSystem at hls
      simp [removeLayer_fst] at hls
      rw [← hls] at hl
      simpa using (List.mem_filter.mp hl).2
  · intro env layers s hs hok
    unfold setSystem
    rw [if_pos hs]
    unfold newLayerE
    rw [hok]
    simp [removeLayer_fst]
  · intro env r name bl evs effs name2 cl ls lsys hsys h hlast hmem hmt
    unfold createModel at h
    split at h
    · simp at h
    rename_i config ls0 hbb
    split at h
    · simp at h
    rename_i ls1 e1 ht
    split at h
    · simp at h
    rename_i ls2 e2 hsy
    split at h
    · simp at h
    rename_i ls3 e3 hlic
    split at h
    · simp at h
    rename_i ls4 e4 hp
    split at h
    · simp at h
    rename_i ls5 e5 hmsg
    split at h
    · simp at h
    rename_i configLayer e6 hcfg
    split at h
    · simp at h
    simp only [Prod.mk.injEq] at h
    obtain ⟨-, -, heffs⟩ := h
    subst heffs
    simp only [← List.append_assoc, List.getLast?_concat, Option.some.injEq,
      Eff.wroteManifest.injEq] at hlast
    obtain ⟨-, -, hls⟩ := hlast
    subst hls
    have h0 : lsys ∈ ls0 := by
      rw [buildBaseLayers_ok_layers _ _ bl initialConfig [] config ls0 hbb]
      simpa using hmem
    have h1 : lsys ∈ ls1 := by
      by_cases htmp : r.template ≠ ""
      · rw [if_pos htmp] at ht
        exact setTemplate_mem env ls0 r.template ls1 e1 ht lsys h0 (by rw [hmt]; decide)
      · rw [if_neg htmp] at ht
        simp only [Prod.mk.injEq, Except.ok.injEq] at ht
        rw [← ht.1]
        exact h0
    have h2 : lsys ∈ ls2 := by
      rw [if_neg (by simp [hsys])] at hsy
      simp only [Prod.mk.injEq, Except.ok.injEq] at hsy
      rw [← hsy.1]
      exact h1
    have h3 : lsys ∈ ls3 := setLicenses_mem env r.license ls2 ls3 e3 hlic lsys h2
    have h4 : lsys ∈ ls4 :=
      setParameters_mem env ls3 r.parameters ls4 e4 hp lsys h3 (by rw [hmt]; decide)
    exact setMessages_mem env ls4 r.messages ls5 e5 hmsg lsys h4 (by rw [hmt]; decide)

/-- C2 witness: clearing and replacing the system prompt of `demoLayers` at
the helper level, and the request-level preservation of `sysLayer0` through a
concrete creation request whose system string is empty. -/
theorem setSystem_empty_clears_witness :
    (setSystem cenv0 demoLayers "").1 =
      .ok (demoLayers.filter (fun l => l.mediaType ≠ "application/vnd.ollama.image.system")) ∧
    (setSystem cenv0 demoLayers "hi").1 =
      .ok (demoLayers.filter (fun l => l.mediaType ≠ "application/vnd.ollama.image.system") ++
           [mkLayer cenv0 (.text "hi") "application/vnd.ollama.image.system"]) ∧
    sysLayer0 ∈ [baseLayer0, sysLayer0] :=
  ⟨(setSystem_empty_clears.1 cenv0 demoLayers).1,
   setSystem_empty_clears.2.1 cenv0 demoLayers "hi" (by decide) rfl,
   setSystem_empty_clears.2.2 cenv0 r0 "test" [baseLG0, sysLG]
     ["writing manifest"]
     [.wroteBlob
        (.config { modelFormat := "gguf", modelFamily := "llama",
                   modelFamilies := ["llama"], modelType := "1000",
                   fileType := "F16", architecture := "amd64", os := "linux",
                   rootFS := { type := "layers",
                               diffIDs := ["sha256:m", "sha256:s0"] } })
        "application/vnd.docker.container.image.v1+json",
      .wroteManifest "test"
        { digest := "sha256:config",
          mediaType := "application/vnd.docker.container.image.v1+json",
          size := 1, status := "" }
        [baseLayer0, sysLayer0]]
     "test"
     { digest := "sha256:config",
       mediaType := "application/vnd.docker.container.image.v1+json",
       size := 1, status := "" }
     [baseLayer0, sysLayer0] sysLayer0
     rfl rfl rfl (by decide) rfl⟩

/-- C2 counterexample: a creation request supplying the system prompt as the
empty string, over base layers containing the existing system-prompt layer
`sysLayer0`, succeeds and writes a manifest whose layer list still contains
that system-prompt layer — `createModel` skips `setSystem` for the empty
string, so the resulting layer set does contain a system-prompt layer,
contradicting the claim. -/
theorem createModel_empty_system_preserves_layer :
    r0.system = "" ∧
    (createModel cenv0 r0 "test" [baseLG0, sysLG]).1 = .ok () ∧
    (createModel cenv0 r0 "test" [baseLG0, sysLG]).2.2.getLast? =
      some (.wroteManifest "test"
        { digest := "sha256:config",
          mediaType := "application/vnd.docker.container.image.v1+json",
          size := 1, status := "" }
        [baseLayer0, sysLayer0]) ∧
    sysLayer0.mediaType = "application/vnd.ollama.image.system" :=
  ⟨rfl, rfl, rfl, rfl⟩

/-- C3 (amended): a call of `convertModelFromFiles` with an empty (zero-entry)
files map fails with `errUnknownType` — detection over an empty map returns
the empty classification, so the gguf branch holding the `errNoFilesProvided`
check is never reached — for every environment, iteration bound, base-layer
list and adapter flag. -/
theorem convertModelFromFiles_empty_unknown_type :
    ∀ (env : GgufEnv) (blobMagic : String → Option String) (fuel : Nat)
      (baseLayers : List LayerGGML) (isAdapter : Bool),
      convertModelFromFiles env blobMagic fuel [] baseLayers isAdapter =
        .error .unknownType := by
  intro env blobMagic fuel baseLayers isAdapter
  rfl

/-- C3 counterexample: at the concrete environment, the empty files map makes
`convertModelFromFiles` fail with `errUnknownType` and not with
`errNoFilesProvided`, contradicting the claim. -/
theorem convertModelFromFiles_empty_cex :
    convertModelFromFiles genvPos magic0 5 [] [] false = .error .unknownType ∧
    CreateErr.unknownType ≠ CreateErr.noFilesProvided :=
  ⟨rfl, by decide⟩

/-- C4: at the failing input — a size-1 blob whose content verifies as GGUF,
with both layer constructors succeeding — the `ggufLayers` loop never exits
for any iteration bound (the source never advances `offset`), so `ggufLayers`
does not terminate and never returns the claimed one content layer; and in
the only terminating situation (a zero-size blob) the returned layer list is
empty rather than one content layer for the source. -/
theorem ggufLayers_loop_never_exits :
    (∀ fuel, ggufLayersLoop genvPos "sha256:m" 1 fuel 0 = none) ∧
    (∀ fuel, (ggufLayers genvPos fuel "sha256:m").2 = none) ∧
    (ggufLayers genvZero 1 "sha256:m").2 = some (.ok []) := by
  have hloop : ∀ fuel, ggufLayersLoop genvPos "sha256:m" 1 fuel 0 = none := by
    intro fuel
    induction fuel with
    | zero => rfl
    | succ n ih =>
      unfold ggufLayersLoop
      simpa [genvPos] using ih
  refine ⟨hloop, ?_, rfl⟩
  intro fuel
  show (match ggufLayersLoop genvPos "sha256:m" 1 fuel 0 with
        | none => (none : Option (Except CreateErr (List LayerGGML)))
        | some (.error m) => some (.error (.io m))
        | some (.ok ls) => some (.ok ls)) = none
  rw [hloop fuel]

/-- C5 (amended): `kvFromLayers` — the aggregation helper the spec refers to —
does fail with the "no base model was found" error whenever every base layer
lacks GGUF metadata; but `createModel` in this source never invokes it, so a
creation request whose base layers all lack GGUF metadata proceeds: it
succeeds and a manifest is written. -/
theorem kvFromLayers_no_base_model :
    (∀ bl : List LayerGGML, (∀ lg ∈ bl, lg.ggml = none) →
      kvFromLayers bl = .error "no base model was found") ∧
    (createModel cenv0 r0 "test" [baseLGnone]).1 = .ok () ∧
    (createModel cenv0 r0 "test" [baseLGnone]).2.2.any
      (fun e => match e with | .wroteManifest _ _ _ => true | _ => false) = true := by
  refine ⟨?_, rfl, rfl⟩
  intro bl h
  induction bl with
  | nil => rfl
  | cons l rest ih =>
    unfold kvFromLayers
    rw [h l (List.mem_cons_self l rest)]
    exact ih (fun lg hm => h lg (List.mem_cons_of_mem l hm))

/-- C5 witness: concrete evaluation of the theorem for a single metadata-free
base layer. -/
theorem kvFromLayers_no_base_model_witness :
    kvFromLayers [baseLGnone] = .error "no base model was found" :=
  kvFromLayers_no_base_model.1 [baseLGnone] (by decide)

/-- C5 counterexample: a creation request whose single base layer carries no
GGUF metadata does not fail with the no-base-model error — `createModel`
succeeds (the source never calls `kvFromLayers`) and writes a manifest whose
config carries empty metadata fields. -/
theorem createModel_no_ggml_writes_manifest :
    createModel cenv0 r0 "test" [baseLGnone] =
      (.ok (), ["writing manifest"],
       [.wroteBlob
          (.config { modelFormat := "", modelFamily := "", modelFamilies := [],
                     modelType := "", fileType := "", architecture := "amd64",
                     os := "linux",
                     rootFS := { type := "layers", diffIDs := ["sha256:m"] } })
          "application/vnd.docker.container.image.v1+json",
        .wroteManifest "test"
          { digest := "sha256:config",
            mediaType := "application/vnd.docker.container.image.v1+json",
            size := 1, status := "" }
          [baseLayer0]]) := rfl

theorem buildBaseLayers_quant_error (hn : Nat → String) (qt : String)
    (hqt : qt ≠ "") :
    ∀ (bl : List LayerGGML) (cfg : ConfigV2) (acc : List Layer),
      (∃ lg ∈ bl, ∃ g, lg.ggml = some g ∧ g.name = "gguf" ∧
        lg.layer.mediaType = "application/vnd.ollama.image.model" ∧
        ¬ ["F16", "F32"].contains g.fileType) →
      buildBaseLayers hn qt bl cfg acc = .error .quantUnsupported := by
  intro bl
  induction bl with
  | nil =>
    intro cfg acc h
    obtain ⟨lg, hm, _⟩ := h
    cases hm
  | cons l rest ih =>
    intro cfg acc h
    obtain ⟨lg, hm, g, hg, hname, hmt, hft⟩ := h
    unfold buildBaseLayers
    cases hgl : l.ggml with
    | none =>
      dsimp only
      rcases List.mem_cons.mp hm with heq | hmem
      · subst heq
        rw [hg] at hgl
        cases hgl
      · exact ih cfg (acc ++ [l.layer]) ⟨lg, hmem, g, hg, hname, hmt, hft⟩
    | some g2 =>
      dsimp only
      by_cases hc : qt ≠ "" ∧ g2.name = "gguf" ∧
          l.layer.mediaType = "application/vnd.ollama.image.model" ∧
          ¬ ["F16", "F32"].contains g2.fileType
      · rw [if_pos hc]
      · rw [if_neg hc]
        rcases List.mem_cons.mp hm with heq | hmem
        · subst heq
          rw [hg] at hgl
          injection hgl with hge
          subst hge
          exact absurd ⟨hqt, hname, hmt, hft⟩ hc
        · exact ih _ _ ⟨lg, hmem, g, hg, hname, hmt, hft⟩

/-- C7: whenever a quantization type is requested and some base layer is a
GGUF base-model layer whose file type is neither F16 nor F32, `createModel`
fails with the unsupported-quantization error having emitted no progress
event and performed no store effect: no overlay layer was appended or
removed, no blob written or deleted, and no manifest written. -/
theorem createModel_quant_guard :
    ∀ (env : CreateEnv) (r : CreateRequest) (name : String)
      (bl : List LayerGGML) (lg : LayerGGML) (g : GGML),
      toUpperGo (cmpOr r.quantize r.quantization) ≠ "" →
      lg ∈ bl → lg.ggml = some g → g.name = "gguf" →
      lg.layer.mediaType = "application/vnd.ollama.image.model" →
      ¬ ["F16", "F32"].contains g.fileType →
      createModel env r name bl = (.error .quantUnsupported, [], []) := by
  intro env r name bl lg g hq hm hg hn hmt hft
  unfold createModel
  rw [buildBaseLayers_quant_error env.humanNumber _ hq bl initialConfig []
      ⟨lg, hm, g, hg, hn, hmt, hft⟩]

/-- C7 witness: the quantization guard fires at the concrete request `rQuant`
over the already-quantized layer `lgQuant`. -/
theorem createModel_quant_guard_witness :
    createModel cenv0 rQuant "test" [lgQuant] = (.error .quantUnsupported, [], []) :=
  createModel_quant_guard cenv0 rQuant "test" [lgQuant] lgQuant
    { name := "gguf", architecture := "llama", parameterCount := 1000,
      fileType := "Q8_0" }
    (by decide) (by decide) rfl rfl rfl (by decide)

theorem plookup_append (k : String) (a b : List (String × PValue)) :
    plookup k (a ++ b) =
      match plookup k a with
      | some v => some v
      | none => plookup k b := by
  induction a with
  | nil => rfl
  | cons kv rest ih =>
    obtain ⟨k2, v⟩ := kv
    by_cases h : k2 = k <;> simp [plookup, h, ih]

theorem plookup_filter_not_in (k : String) (p E : List (String × PValue))
    (hk : plookup k p = none) :
    plookup k (E.filter (fun kv => (plookup kv.1 p).isNone)) = plookup k E := by
  induction E with
  | nil => rfl
  | cons kv rest ih =>
    obtain ⟨k2, v⟩ := kv
    by_cases h : k2 = k
    · subst h
      have hnone : (plookup k2 p).isNone = true := by rw [hk]; rfl
      simp [List.filter_cons, hnone, plookup]
    · by_cases h2 : (plookup k2 p).isNone = true <;>
        simp [List.filter_cons, h2, plookup, h, ih]

theorem plookup_mergeExisting (P E : List (String × PValue)) (k : String) :
    plookup k (mergeExisting P E) =
      match plookup k P with
      | some v => some v
      | none => plookup k E := by
  unfold mergeExisting
  rw [plookup_append]
  cases h : plookup k P with
  | some v => rfl
  | none => simp [plookup_filter_not_in k P E h]

theorem gatherParams_no_params (env : CreateEnv) :
    ∀ (layers : List Layer) (p : List (String × PValue)),
      (∀ l ∈ layers, l.mediaType ≠ "application/vnd.ollama.image.params") →
      gatherParams env layers p = .ok p := by
  intro layers
  induction layers with
  | nil => intro p _; rfl
  | cons l rest ih =>
    intro p h
    unfold gatherParams
    rw [if_neg (h l (List.mem_cons_self l rest))]
    exact ih p (fun x hx => h x (List.mem_cons_of_mem l hx))

theorem gatherParams_single (env : CreateEnv) (pl : Layer)
    (E : List (String × PValue)) (hr : env.readParams pl.digest = .ok E) :
    ∀ (layers : List Layer) (p : List (String × PValue)),
      layers.filter (fun l => l.mediaType = "application/vnd.ollama.image.params") = [pl] →
      gatherParams env layers p = .ok (mergeExisting p E) := by
  intro layers
  induction layers with
  | nil =>
    intro p h
    simp at h
  | cons l rest ih =>
    intro p h
    by_cases hl : l.mediaType = "application/vnd.ollama.image.params"
    · rw [List.filter_cons_of_pos (by simpa using hl)] at h
      injection h with h1 h2
      subst h1
      unfold gatherParams
      rw [if_pos hl, hr]
      apply gatherParams_no_params
      intro x hx hmt
      have hxin : x ∈ rest.filter
          (fun l => l.mediaType = "application/vnd.ollama.image.params") :=
        List.mem_filter.mpr ⟨hx, by simpa using hmt⟩
      rw [h2] at hxin
      cases hxin
    · rw [List.filter_cons_of_neg (by simpa using hl)] at h
      unfold gatherParams
      rw [if_neg hl]
      exact ih p h

/-- C8: with exactly one existing parameters layer, storing map `E`, and a
newly supplied map `P`, `setParameters` writes a parameters layer whose
content is the merge in which every key of `P` keeps its `P` value and every
key of `E` absent from `P` is carried forward (the old parameters layer being
removed, the merged layer appended); and when the merged map is empty, no
parameters layer is written, no removal is attempted, and the layer list is
returned untouched. -/
theorem setParameters_merge_law :
    ∀ (env : CreateEnv) (layers : List Layer) (pl : Layer)
      (E P : List (String × PValue)),
      layers.filter (fun l => l.mediaType = "application/vnd.ollama.image.params") = [pl] →
      env.readParams pl.digest = .ok E →
      (∀ k, plookup k (mergeExisting P E) =
          match plookup k P with
          | some v => some v
          | none => plookup k E) ∧
      (mergeExisting P E ≠ [] →
        env.newLayerErr (.params (mergeExisting P E)) "application/vnd.ollama.image.params" = none →
        (setParameters env layers P).1 =
          .ok (layers.filter (fun l => l.mediaType ≠ "application/vnd.ollama.image.params") ++
               [mkLayer env (.params (mergeExisting P E)) "application/vnd.ollama.image.params"])) ∧
      (mergeExisting P E = [] → setParameters env layers P = (.ok layers, [])) := by
  intro env layers pl E P hfilter hread
  refine ⟨fun k => plookup_mergeExisting P E k, ?_, ?_⟩
  · intro hne hok
    unfold setParameters
    rw [gatherParams_single env pl E hread layers P hfilter]
    dsimp only
    rw [if_neg (by simpa [List.isEmpty_iff] using hne)]
    unfold newLayerE
    rw [hok]
    simp [removeLayer_fst]
  · intro hempty
    unfold setParameters
    rw [gatherParams_single env pl E hread layers P hfilter]
    dsimp only
    rw [if_pos (by simpa [List.isEmpty_iff] using hempty)]

/-- C8 witness: merging the supplied map `{b: 2}` with the stored map `{a: 1}`
of the concrete parameters layer `plDemo`. -/
theorem setParameters_merge_law_witness :
    plookup "a" (mergeExisting [("b", PValue.num 2)] [("a", PValue.num 1)]) =
      some (PValue.num 1) ∧
    (setParameters cenv0 [plDemo] [("b", PValue.num 2)]).1 =
      .ok ([plDemo].filter (fun l => l.mediaType ≠ "application/vnd.ollama.image.params") ++
           [mkLayer cenv0
             (.params (mergeExisting [("b", PValue.num 2)] [("a", PValue.num 1)]))
             "application/vnd.ollama.image.params"]) :=
  ⟨by decide,
   (setParameters_merge_law cenv0 [plDemo] plDemo [("a", PValue.num 1)]
      [("b", PValue.num 2)] (by decide) rfl).2.1 (by decide) rfl⟩

/-- C9: whenever `createModel` succeeds, its final store effect is the
manifest write, whose config layer was built from a config document whose
root-filesystem diff-IDs list is exactly the digest sequence, in order, of
the content layers passed to the manifest write. -/
theorem config_diffids_match_manifest :
    ∀ (env : CreateEnv) (r : CreateRequest) (name : String)
      (bl : List LayerGGML) (evs : List String) (effs : List Eff),
      createModel env r name bl = (.ok (), evs, effs) →
      ∃ (cfg : ConfigV2) (ls : List Layer),
        effs.getLast? = some (.wroteManifest name
          (mkLayer env (.config cfg) "application/vnd.docker.container.image.v1+json") ls) ∧
        cfg.rootFS.diffIDs = ls.map (·.digest) := by
  intro env r name bl evs effs h
  unfold createModel at h
  split at h
  · simp at h
  rename_i config ls0 hbb
  split at h
  · simp at h
  rename_i ls1 e1 ht
  split at h
  · simp at h
  rename_i ls2 e2 hs
  split at h
  · simp at h
  rename_i ls3 e3 hlic
  split at h
  · simp at h
  rename_i ls4 e4 hp
  split at h
  · simp at h
  rename_i ls5 e5 hm
  split at h
  · simp at h
  rename_i configLayer e6 hcfg
  split at h
  · simp at h
  simp only [Prod.mk.injEq] at h
  obtain ⟨-, hevs, heffs⟩ := h
  unfold createConfigLayer at hcfg
  split at hcfg
  · simp at hcfg
  rename_i l e7 hnl
  unfold newLayerE at hnl
  split at hnl
  · simp at hnl
  simp only [Except.ok.injEq, Prod.mk.injEq] at hnl hcfg
  obtain ⟨hl, he7⟩ := hnl
  obtain ⟨hl2, he6⟩ := hcfg
  subst heffs
  refine ⟨{ config with
      rootFS := { config.rootFS with diffIDs := ls5.map (·.digest) } }, ls5, ?_, rfl⟩
  simp only [← List.append_assoc, List.getLast?_concat]
  rw [← hl2, ← hl]

/-- C9 witness: evaluation of the theorem at a concrete successful creation
request over one F16 GGUF base layer. -/
theorem config_diffids_match_manifest_witness :
    ∃ (cfg : ConfigV2) (ls : List Layer),
      (createModel cenv0 r0 "test" [baseLG0]).2.2.getLast? =
        some (.wroteManifest "test"
          (mkLayer cenv0 (.config cfg) "application/vnd.docker.container.image.v1+json") ls) ∧
      cfg.rootFS.diffIDs = ls.map (·.digest) :=
  config_diffids_match_manifest cenv0 r0 "test" [baseLG0]
    ["writing manifest"]
    [.wroteBlob
       (.config { modelFormat := "gguf", modelFamily := "llama",
                  modelFamilies := ["llama"], modelType := "1000",
                  fileType := "F16", architecture := "amd64", os := "linux",
                  rootFS := { type := "layers", diffIDs := ["sha256:m"] } })
       "application/vnd.docker.container.image.v1+json",
     .wroteManifest "test"
       { digest := "sha256:config",
         mediaType := "application/vnd.docker.container.image.v1+json",
         size := 1, status := "" }
       [baseLayer0]]
    rfl

/-- C6 (amended): every adapter-layering failure — the known sentinel error
kinds of §4.3 and every other failure alike — is reported as one terminal
error event carrying the caller-input (HTTP 400) classification, because the
fallthrough branch of the adapter error handling also attaches
`http.StatusBadRequest`. -/
theorem adapter_failures_all_bad_request :
    ∀ (env : OrchEnv) (bl : List LayerGGML) (evs : List String) (e : CreateErr),
      env.r.adapters.isSome = true →
      env.convertAdaptersRes = (evs, .error e) →
      afterBase env bl = evs.map .progress ++ [.errorEvt e.message (some 400)] := by
  intro env bl evs e ha hc
  obtain ⟨fs, hfs⟩ := Option.isSome_iff_exists.mp ha
  unfold afterBase
  rw [hfs]
  dsimp only
  rw [hc]
  dsimp only
  split <;> rfl

/-- C6 witness: the amended theorem evaluated at the concrete environment in
which the adapter conversion fails with an internal storage error. -/
theorem adapter_failures_all_bad_request_witness :
    afterBase orchAdapterFail [] = [.errorEvt "disk failure" (some 400)] :=
  adapter_failures_all_bad_request orchAdapterFail [] [] (.io "disk failure") rfl rfl

/-- C6 counterexample: an adapter conversion failing with the internal error
"disk failure" — which is not one of the known §4.3 sentinel kinds — is still
delivered with the HTTP 400 caller-error classification, contradicting the
claim that such failures are reported without it. -/
theorem adapter_internal_error_gets_400 :
    createHandlerGo orchAdapterFail = [.errorEvt "disk failure" (some 400)] ∧
    badReqAdapterErrs.contains (CreateErr.io "disk failure") = false :=
  ⟨rfl, rfl⟩

theorem afterAdapters_error (env : OrchEnv) (bl : List LayerGGML) (e : CreateErr)
    (h : (createModel env.cenv env.r env.name bl).1 = .error e) :
    afterAdapters env bl =
      (createModel env.cenv env.r env.name bl).2.1.map .progress ++
      [.errorEvt e.message (createModelErrStatus e)] := by
  unfold afterAdapters
  rcases hcm : createModel env.cenv env.r env.name bl with ⟨res, evs2, effs⟩
  rw [hcm] at h
  dsimp only at h
  subst h
  rfl

theorem afterAdapters_ok (env : OrchEnv) (bl : List LayerGGML)
    (h : (createModel env.cenv env.r env.name bl).1 = .ok ()) :
    afterAdapters env bl =
      (createModel env.cenv env.r env.name bl).2.1.map .progress ++
      (if ¬ env.noPrune ∧ env.oldManifestExists then
        match env.pruneRes with
        | .error m => [.errorEvt m none]
        | .ok _ => []
      else []) ++ [.progress "success"] := by
  unfold afterAdapters
  rcases hcm : createModel env.cenv env.r env.name bl with ⟨res, evs2, effs⟩
  rw [hcm] at h
  dsimp only at h
  subst h
  rfl

/-- C1 (amended): the channel of `CreateHandler` delivers exactly one
terminal error event and no success event when conversion from files or model
creation fails; when model creation succeeds the "success" event is always
delivered last (with pruning skipped or succeeding it directly follows the
progress statuses) — but a pruning failure emits an error event that is then
*followed* by the success event, and a `parseFromModel` failure emits an
error event after which processing *continues* (further progress events and
the success event may follow), so an error event is not always terminal. -/
theorem createHandler_terminal_events :
    (∀ (env : OrchEnv) (evs : List String) (e : CreateErr),
      env.r.fromField = "" → env.r.files.isSome = true →
      env.convertFilesRes = (evs, .error e) →
      createHandlerGo env =
        evs.map .progress ++
        [.errorEvt e.message (if badReqFileErrs.contains e then some 400 else none)]) ∧
    (∀ (env : OrchEnv) (evs0 : List String) (bl : List LayerGGML) (e : CreateErr),
      env.r.fromField = "" → env.r.files.isSome = true →
      env.convertFilesRes = (evs0, .ok bl) → env.r.adapters = none →
      (createModel env.cenv env.r env.name bl).1 = .error e →
      createHandlerGo env =
        evs0.map .progress ++
        (createModel env.cenv env.r env.name bl).2.1.map .progress ++
        [.errorEvt e.message (createModelErrStatus e)]) ∧
    (∀ (env : OrchEnv) (evs0 : List String) (bl : List LayerGGML),
      env.r.fromField = "" → env.r.files.isSome = true →
      env.convertFilesRes = (evs0, .ok bl) → env.r.adapters = none →
      (createModel env.cenv env.r env.name bl).1 = .ok () →
      (env.noPrune = true ∨ env.oldManifestExists = false ∨ env.pruneRes = .ok ()) →
      createHandlerGo env =
        evs0.map .progress ++
        (createModel env.cenv env.r env.name bl).2.1.map .progress ++
        [.progress "success"]) ∧
    (∀ (env : OrchEnv) (evs0 : List String) (bl : List LayerGGML) (m : String),
      env.r.fromField = "" → env.r.files.isSome = true →
      env.convertFilesRes = (evs0, .ok bl) → env.r.adapters = none →
      (createModel env.cenv env.r env.name bl).1 = .ok () →
      env.noPrune = false → env.oldManifestExists = true →
      env.pruneRes = .error m →
      createHandlerGo env =
        evs0.map .progress ++
        (createModel env.cenv env.r env.name bl).2.1.map .progress ++
        [.errorEvt m none, .progress "success"]) ∧
    (∀ (env : OrchEnv) (evs0 : List String) (m : String),
      env.r.fromField ≠ "" → env.fromNameValid = true →
      env.parseFromModelRes = (evs0, .error m) → env.r.adapters = none →
      (createModel env.cenv env.r env.name []).1 = .ok () →
      env.noPrune = true →
      createHandlerGo env =
        evs0.map .progress ++ [.errorEvt m none] ++
        (createModel env.cenv env.r env.name []).2.1.map .progress ++
        [.progress "success"]) := by
  refine ⟨?_, ?_, ?_, ?_, ?_⟩
  · intro env evs e hfrom hfiles hconv
    obtain ⟨fs, hfs⟩ := Option.isSome_iff_exists.mp hfiles
    unfold createHandlerGo
    rw [if_neg (by simp [hfrom]), hfs]
    dsimp only
    rw [hconv]
    dsimp only
    by_cases hbc : e ∈ badReqFileErrs <;> simp [hbc]
  · intro env evs0 bl e hfrom hfiles hconv hadapt hcm
    obtain ⟨fs, hfs⟩ := Option.isSome_iff_exists.mp hfiles
    unfold createHandlerGo
    rw [if_neg (by simp [hfrom]), hfs]
    dsimp only
    rw [hconv]
    dsimp only
    unfold afterBase
    rw [hadapt]
    dsimp only
    rw [afterAdapters_error env bl e hcm, List.append_assoc]
  · intro env evs0 bl hfrom hfiles hconv hadapt hcm hskip
    obtain ⟨fs, hfs⟩ := Option.isSome_iff_exists.mp hfiles
    unfold createHandlerGo
    rw [if_neg (by simp [hfrom]), hfs]
    dsimp only
    rw [hconv]
    dsimp only
    unfold afterBase
    rw [hadapt]
    dsimp only
    rw [afterAdapters_ok env bl hcm]
    rcases hskip with hnp | hom | hpr
    · rw [if_neg (by simp [hnp])]
      simp
    · rw [if_neg (by simp [hom])]
      simp
    · by_cases hc : ¬ env.noPrune ∧ env.oldManifestExists
      · rw [if_pos hc, hpr]
        simp
      · rw [if_neg hc]
        simp
  · intro env evs0 bl m hfrom hfiles hconv hadapt hcm hnp hom hpr
    obtain ⟨fs, hfs⟩ := Option.isSome_iff_exists.mp hfiles
    unfold createHandlerGo
    rw [if_neg (by simp [hfrom]), hfs]
    dsimp only
    rw [hconv]
    dsimp only
    unfold afterBase
    rw [hadapt]
    dsimp only
    rw [afterAdapters_ok env bl hcm, if_pos (by simp [hnp, hom]), hpr]
    simp
  · intro env evs0 m hfrom hvalid hparse hadapt hcm hnp
    unfold createHandlerGo
    rw [if_pos hfrom, if_neg (by simp [hvalid]), hparse]
    dsimp only
    unfold afterBase
    rw [hadapt]
    dsimp only
    rw [afterAdapters_ok env [] hcm, if_neg (by simp [hnp])]
    simp

/-- C1 witness: the success-path conjunct of the theorem evaluated at the
concrete environment `orchOk`. -/
theorem createHandler_terminal_events_witness :
    createHandlerGo orchOk =
      (["parsing GGUF"].map Event.progress) ++
      ((createModel cenv0 r0 "test" [baseLG0]).2.1.map Event.progress) ++
      [.progress "success"] :=
  createHandler_terminal_events.2.2.1 orchOk ["parsing GGUF"] [baseLG0]
    rfl rfl rfl rfl rfl (Or.inl rfl)

/-- C1 counterexample: at the concrete request `orchPruneFail` — source
conversion, model creation and the manifest write succeed, but pruning the
superseded manifest fails — the channel delivers an error event that is then
*followed* by the terminal success event, contradicting the claim that an
error event is never followed by further events and that a failed request
produces no success event. -/
theorem createHandler_prune_error_then_success :
    createHandlerGo orchPruneFail =
      [.progress "parsing GGUF", .progress "writing manifest",
       .errorEvt "prune failed" none, .progress "success"] := rfl

end OllamaCreate
